import Mathlib

/-
Verification of the closed-loop alignment controller and the
historical-state locator of ts_standardscripts, as a shallow embedding of
maintel/laser_tracker/align.py and maintel/sync_dof.py.  Real-valued SAL
quantities (meters, degrees, julian-day times) are modelled as rationals;
suspension points and remote commands are recorded as explicit operations
in a trace.
-/

namespace LaserAlign

/-- Target component enumeration (class AlignComponent in align.py). -/
inductive AlignComponent where
  | M2
  | Camera
deriving DecidableEq, Repr

/-- Laser status values as far as check_laser_status_ok distinguishes them:
only equality with LaserStatus.ON matters. -/
inductive LaserStatus where
  | on
  | off
deriving DecidableEq, Repr

/-- Fields of the evt_offsetsPublish event consumed by align_target. -/
structure OffsetsPublish where
  dX : ℚ
  dY : ℚ
  dZ : ℚ
  dRX : ℚ
  dRY : ℚ
deriving DecidableEq, Repr

/-- Observable remote operations issued by the Align script, in program
order: the event flush, the cmd_align start, the evt_offsetsPublish wait,
the hexapod relative move, the laser status read and the checkpoints. -/
inductive Op where
  | flush
  | alignCmd (target : AlignComponent)
  | awaitFeedback
  | relMove (v : List ℚ)
  | readLaserStatus
  | checkpoint (s : String)
deriving DecidableEq, Repr

/-- Errors raised by the Align script (RuntimeError, carrying the values
interpolated into the message). -/
inductive AlignError where
  | exhausted (target : AlignComponent) (max_iter : ℕ)
  | laserNotOn (status : LaserStatus)
deriving DecidableEq, Repr

/-- The corrections vector computed by align_target (align.py lines
174-182).  Linear axes are rescaled by 1e6 and compared to
tolerance_linear; the dRX entry is compared to tolerance_angular; the dRY
entry is gated on abs dRX, exactly as written in the source. -/
def corrections (tolerance_linear tolerance_angular : ℚ)
    (o : OffsetsPublish) : List ℚ :=
  [ if |o.dX| > tolerance_linear then o.dX * 1000000 else 0,
    if |o.dY| > tolerance_linear then o.dY * 1000000 else 0,
    if |o.dZ| > tolerance_linear then o.dZ * 1000000 else 0,
    if |o.dRX| > tolerance_angular then o.dRX else 0,
    if |o.dRX| > tolerance_angular then o.dRY else 0 ]

/-- The for loop of align_target.  fb n is the offsetsPublish event read
during iteration n; r is the number of iterations of range(max_iter) still
to run and n the current iteration index.  Each iteration flushes the
event, issues cmd_align, awaits one event, computes the corrections and
either applies the negated corrections and continues or returns
(converged).  Exhausting the range raises the RuntimeError naming the
target and max_iter. -/
def alignGo (fb : ℕ → OffsetsPublish) (tolerance_linear tolerance_angular : ℚ)
    (target : AlignComponent) (max_iter : ℕ) :
    ℕ → ℕ → List Op × Except AlignError Unit
  | _, 0 => ([], .error (.exhausted target max_iter))
  | n, r + 1 =>
    let offset := fb n
    let c := corrections tolerance_linear tolerance_angular offset
    if c.any (fun x => decide (x ≠ 0)) then
      let rest := alignGo fb tolerance_linear tolerance_angular target max_iter (n + 1) r
      (Op.flush :: Op.alignCmd target :: Op.awaitFeedback ::
        Op.relMove (c.map (fun x => -x)) :: rest.1, rest.2)
    else
      ([Op.flush, Op.alignCmd target, Op.awaitFeedback], Except.ok ())

/-- Align.align_target: run the iteration loop from iteration 0 with
max_iter iterations available. -/
def align_target (fb : ℕ → OffsetsPublish)
    (tolerance_linear tolerance_angular : ℚ) (target : AlignComponent)
    (max_iter : ℕ) : List Op × Except AlignError Unit :=
  alignGo fb tolerance_linear tolerance_angular target max_iter 0 max_iter

/-- Align.run: read the laser status (check_laser_status_ok) and raise if
it is not ON; otherwise checkpoint, run align_target and checkpoint
again. -/
def runScript (laser : LaserStatus) (fb : ℕ → OffsetsPublish)
    (tolerance_linear tolerance_angular : ℚ) (target : AlignComponent)
    (max_iter : ℕ) : List Op × Except AlignError Unit :=
  if laser ≠ LaserStatus.on then
    ([Op.readLaserStatus], .error (.laserNotOn laser))
  else
    let res := align_target fb tolerance_linear tolerance_angular target max_iter
    match res.2 with
    | .ok _ =>
      (Op.readLaserStatus :: Op.checkpoint "Starting alignment procedure." ::
        res.1 ++ [Op.checkpoint "aligned with laser tracker."], Except.ok ())
    | .error e =>
      (Op.readLaserStatus :: Op.checkpoint "Starting alignment procedure." ::
        res.1, .error e)

/-- Default linear tolerance, 1.0e-7 meter. -/
def defaultTolLinear : ℚ := mkRat 1 10000000

/-- Default angular tolerance, 5.0/3600.0 degrees. -/
def defaultTolAngular : ℚ := mkRat 5 3600

/-- Discriminator for the cmd_align operation. -/
def Op.isAlignCmd : Op → Bool
  | .alignCmd _ => true
  | _ => false

/-- Discriminator for the evt_offsetsPublish wait operation. -/
def Op.isAwaitFeedback : Op → Bool
  | .awaitFeedback => true
  | _ => false

/-- Discriminator for the hexapod relative-move operation. -/
def Op.isRelMove : Op → Bool
  | .relMove _ => true
  | _ => false

/-- Discriminator for the stale-event flush operation. -/
def Op.isFlush : Op → Bool
  | .flush => true
  | _ => false

/-- Shape of the operations one loop iteration of align_target emits: the
flush, the alignment command and the single feedback wait, in that order,
followed by a relative move exactly when the iteration did not
converge. -/
def IsIterBlock (target : AlignComponent) (b : List Op) : Prop :=
  b = [Op.flush, Op.alignCmd target, Op.awaitFeedback] ∨
  ∃ v, b = [Op.flush, Op.alignCmd target, Op.awaitFeedback, Op.relMove v]

end LaserAlign

namespace SyncDOF

/-- One archived row of lsst.sal.MTAOS.logevent_degreeOfFreedom: a
timestamp (julian days) and the aggregatedDoF vector of that row. -/
structure Sample where
  ts : ℚ
  state : List ℚ
deriving DecidableEq, Repr

/-- Samples returned by client.select_time_series for one window, in time
order; the archive query is half-open, start ≤ ts < stop (spec 3,
TimeWindow). -/
def queryWindow (arch : List Sample) (tstart tstop : ℚ) : List Sample :=
  arch.filter (fun s => decide (tstart ≤ s.ts) && decide (s.ts < tstop))

/-- Constant max_lookback_days of get_last_issued_state. -/
def max_lookback_days : ℕ := 7

/-- The while loop of get_last_issued_state (sync_dof.py lines 151-170).
The index n counts completed one-day steps back from the reference time,
so the window queried is [time - (n+1), time - n); r holds
max_lookback_days - n, so the give-up test
(time - current_end).jd > max_lookback_days is r = 0.  A nonempty query
returns the last row of the window (state.iloc[[-1]]); otherwise the loop
either gives up with np.zeros(50) or steps one more day back. -/
def lastIssuedGo (arch : List Sample) (time : ℚ) : ℕ → ℕ → List ℚ
  | n, 0 =>
    match (queryWindow arch (time - (n + 1)) (time - n)).getLast? with
    | some s => s.state
    | none => List.replicate 50 0
  | n, r + 1 =>
    match (queryWindow arch (time - (n + 1)) (time - n)).getLast? with
    | some s => s.state
    | none => lastIssuedGo arch time (n + 1) r

/-- SyncDOF.get_last_issued_state: run the window search from the
reference time with the full lookback budget. -/
def get_last_issued_state (arch : List Sample) (time : ℚ) : List ℚ :=
  lastIssuedGo arch time 0 max_lookback_days

/-- Python errors that the embedded fragment of SyncDOF.run can raise. -/
inductive PyErr where
  | typeError
  | indexError
deriving DecidableEq, Repr

/-- The for loop of SyncDOF.run (sync_dof.py lines 187-188) filling
cmd_offsetDOF data: value[i] = target[i] - current[i] for each index i of
the iterated target vector; reading current[i] or writing value[i] out of
range raises IndexError. -/
def syncLoop (current : List ℚ) (value : List ℚ) (i : ℕ) :
    List ℚ → Except PyErr (List ℚ)
  | [] => .ok value
  | t :: ts =>
    match current[i]? with
    | none => .error .indexError
    | some c =>
      if i < value.length then
        syncLoop current (value.set i (t - c)) (i + 1) ts
      else
        .error .indexError

/-- The offset computation of SyncDOF.run as a function of the target and
current DOF vectors: cmd_offsetDOF.DataType() starts as a zero vector of
the command width and the loop overwrites the first target.length
entries. -/
def synchronize (target current : List ℚ) (width : ℕ) :
    Except PyErr (List ℚ) :=
  syncLoop current (List.replicate width 0) 0 target

/-- Values a Python expression takes in the embedded fragment of run: an
awaited DOF vector, or the coroutine object obtained by calling an async
method without awaiting it. -/
inductive PyVal where
  | vec (v : List ℚ)
  | coroutine (func : String)
deriving DecidableEq, Repr

/-- Iteration of a value, as enumerate performs it: a vector iterates over
its entries, a coroutine object is not iterable and raises TypeError. -/
def pyIterate : PyVal → Except PyErr (List ℚ)
  | .vec v => .ok v
  | .coroutine _ => .error .typeError

/-- Observable operations of SyncDOF.run after assert_feasibility. -/
inductive SyncOp where
  | checkpointDof
  | getCurrentDof
  | offsetDOFCmd (v : List ℚ)
deriving DecidableEq, Repr

/-- Environment of one SyncDOF.run execution: the archive behind the EFD
client, the image end time the archive would report for (day, seq), and
the aggregatedDoF vector of the mtaos evt_degreeOfFreedom event. -/
structure SyncEnv where
  arch : List Sample
  imageTime : ℚ
  currentDof : List ℚ

/-- Embedding of SyncDOF.run after assert_feasibility (sync_dof.py lines
178-189).  The source binds image_end_time and last_state by calling the
async methods get_image_time and get_last_issued_state without await, so
both names hold coroutine objects; run then reads evt_degreeOfFreedom and
iterates last_state to fill the cmd_offsetDOF data. -/
def runSync (env : SyncEnv) : List SyncOp × Except PyErr Unit :=
  let _image_end_time : PyVal := .coroutine "SyncDOF.get_image_time"
  let last_state : PyVal := .coroutine "SyncDOF.get_last_issued_state"
  let ops := [SyncOp.checkpointDof, SyncOp.getCurrentDof]
  match pyIterate last_state with
  | .error e => (ops, .error e)
  | .ok target =>
    match synchronize target env.currentDof 50 with
    | .error e => (ops, .error e)
    | .ok v => (ops ++ [SyncOp.offsetDOFCmd v], .ok ())

/-- Modelled from the spec: the run SyncDOF.run was intended to perform,
with the two async collaborators awaited, so that the awaited
get_last_issued_state vector at the awaited get_image_time instant is the
target of the relative offset (spec 2 and spec 4.4). -/
def runSyncAwaited (env : SyncEnv) : List SyncOp × Except PyErr Unit :=
  let last_state : List ℚ :=
    get_last_issued_state env.arch env.imageTime
  let ops := [SyncOp.checkpointDof, SyncOp.getCurrentDof]
  match synchronize last_state env.currentDof 50 with
  | .error e => (ops, .error e)
  | .ok v => (ops ++ [SyncOp.offsetDOFCmd v], .ok ())

end SyncDOF

namespace LaserAlign

/-- C1: the claimed per-axis rule fails on axis dRY.  At feedback
(0, 0, 0, 0, 1) with the default tolerances the dRY axis exceeds
tolerance_angular, yet the computed corrections vector is zero on every
axis, because align.py line 180 gates the dRY entry on the magnitude of
dRX instead of dRY. -/
theorem corrections_dRY_gated_on_dRX :
    defaultTolAngular < |(1 : ℚ)| ∧
    corrections defaultTolLinear defaultTolAngular ⟨0, 0, 0, 0, 1⟩ =
      [0, 0, 0, 0, 0] := by
  constructor
  · norm_num [defaultTolAngular]
  · norm_num [corrections, defaultTolLinear, defaultTolAngular]

/-- C8: when the feedback read in an iteration lies within tolerance on
every axis, with equality counting as within tolerance since the source
compares with strict greater-than, the corrections vector is all zero and
that iteration returns converged after the flush, the alignment command
and the single feedback wait, issuing no relative move. -/
theorem within_tolerance_converges
    (fb : ℕ → OffsetsPublish) (tolerance_linear tolerance_angular : ℚ)
    (target : AlignComponent) (max_iter n r : ℕ)
    (h1 : |(fb n).dX| ≤ tolerance_linear)
    (h2 : |(fb n).dY| ≤ tolerance_linear)
    (h3 : |(fb n).dZ| ≤ tolerance_linear)
    (h4 : |(fb n).dRX| ≤ tolerance_angular)
    (h5 : |(fb n).dRY| ≤ tolerance_angular) :
    corrections tolerance_linear tolerance_angular (fb n) =
        [0, 0, 0, 0, 0] ∧
    alignGo fb tolerance_linear tolerance_angular target max_iter n (r + 1) =
      ([Op.flush, Op.alignCmd target, Op.awaitFeedback], Except.ok ()) := by
  have hc : corrections tolerance_linear tolerance_angular (fb n) =
      [0, 0, 0, 0, 0] := by
    simp [corrections, not_lt.mpr h1, not_lt.mpr h2, not_lt.mpr h3,
      not_lt.mpr h4]
  refine ⟨hc, ?_⟩
  simp [alignGo, hc]

/-- C8 witness: the all-zero feedback reading at the default tolerances
converges on the spot. -/
theorem within_tolerance_converges_witness :
    corrections defaultTolLinear defaultTolAngular
        ((fun _ : ℕ => (⟨0, 0, 0, 0, 0⟩ : OffsetsPublish)) 0) =
        [0, 0, 0, 0, 0] ∧
    alignGo (fun _ : ℕ => (⟨0, 0, 0, 0, 0⟩ : OffsetsPublish))
        defaultTolLinear defaultTolAngular AlignComponent.M2 1 0 (0 + 1) =
      ([Op.flush, Op.alignCmd AlignComponent.M2, Op.awaitFeedback],
        Except.ok ()) :=
  within_tolerance_converges (fun _ => ⟨0, 0, 0, 0, 0⟩) defaultTolLinear
    defaultTolAngular AlignComponent.M2 1 0 0
    (by norm_num [defaultTolLinear]) (by norm_num [defaultTolLinear])
    (by norm_num [defaultTolLinear]) (by norm_num [defaultTolAngular])
    (by norm_num [defaultTolAngular])

/-- C5: when the laser status read is not ON, run raises the laser status
error with a trace holding only the status read: zero alignment commands,
zero feedback waits and zero relative moves were issued. -/
theorem runScript_precondition_failure
    (laser : LaserStatus) (h : laser ≠ LaserStatus.on)
    (fb : ℕ → OffsetsPublish) (tolerance_linear tolerance_angular : ℚ)
    (target : AlignComponent) (max_iter : ℕ) :
    (runScript laser fb tolerance_linear tolerance_angular target
        max_iter).2 = .error (.laserNotOn laser) ∧
    (runScript laser fb tolerance_linear tolerance_angular target
        max_iter).1 = [Op.readLaserStatus] ∧
    (runScript laser fb tolerance_linear tolerance_angular target
        max_iter).1.countP Op.isAlignCmd = 0 ∧
    (runScript laser fb tolerance_linear tolerance_angular target
        max_iter).1.countP Op.isAwaitFeedback = 0 ∧
    (runScript laser fb tolerance_linear tolerance_angular target
        max_iter).1.countP Op.isRelMove = 0 := by
  refine ⟨?_, ?_, ?_, ?_, ?_⟩ <;>
    simp [runScript, h, Op.isAlignCmd, Op.isAwaitFeedback, Op.isRelMove]

/-- C5 witness: a laser that reports OFF fails the precondition check. -/
theorem runScript_precondition_failure_witness :
    (runScript LaserStatus.off (fun _ => ⟨0, 0, 0, 0, 0⟩) defaultTolLinear
        defaultTolAngular AlignComponent.M2 10).2 =
        .error (.laserNotOn LaserStatus.off) ∧
    (runScript LaserStatus.off (fun _ => ⟨0, 0, 0, 0, 0⟩) defaultTolLinear
        defaultTolAngular AlignComponent.M2 10).1 = [Op.readLaserStatus] ∧
    (runScript LaserStatus.off (fun _ => ⟨0, 0, 0, 0, 0⟩) defaultTolLinear
        defaultTolAngular AlignComponent.M2 10).1.countP Op.isAlignCmd = 0 ∧
    (runScript LaserStatus.off (fun _ => ⟨0, 0, 0, 0, 0⟩) defaultTolLinear
        defaultTolAngular AlignComponent.M2 10).1.countP
        Op.isAwaitFeedback = 0 ∧
    (runScript LaserStatus.off (fun _ => ⟨0, 0, 0, 0, 0⟩) defaultTolLinear
        defaultTolAngular AlignComponent.M2 10).1.countP Op.isRelMove = 0 :=
  runScript_precondition_failure LaserStatus.off (by decide)
    (fun _ => ⟨0, 0, 0, 0, 0⟩) defaultTolLinear defaultTolAngular
    AlignComponent.M2 10

/-- Helper: when every remaining iteration computes a nonzero corrections
vector, the loop consumes all r remaining iterations — r flushes, r
alignment commands, r feedback waits — and then fails with the exhaustion
error naming the target and max_iter. -/
theorem alignGo_never_converges
    (fb : ℕ → OffsetsPublish) (tolerance_linear tolerance_angular : ℚ)
    (target : AlignComponent) (max_iter : ℕ) :
    ∀ (r n : ℕ),
      (∀ m, n ≤ m → m < n + r →
        (corrections tolerance_linear tolerance_angular (fb m)).any
          (fun x => decide (x ≠ 0)) = true) →
      (alignGo fb tolerance_linear tolerance_angular target max_iter
          n r).2 = .error (.exhausted target max_iter) ∧
      (alignGo fb tolerance_linear tolerance_angular target max_iter
          n r).1.countP Op.isAlignCmd = r ∧
      (alignGo fb tolerance_linear tolerance_angular target max_iter
          n r).1.countP Op.isAwaitFeedback = r ∧
      (alignGo fb tolerance_linear tolerance_angular target max_iter
          n r).1.countP Op.isFlush = r := by
  intro r
  induction r with
  | zero =>
    intro n _
    simp [alignGo]
  | succ r ih =>
    intro n hnz
    have hn : (corrections tolerance_linear tolerance_angular (fb n)).any
        (fun x => decide (x ≠ 0)) = true := hnz n le_rfl (by omega)
    have ihres := ih (n + 1) (fun m hm1 hm2 => hnz m (by omega) (by omega))
    simp only [alignGo, hn, if_true]
    refine ⟨ihres.1, ?_, ?_, ?_⟩ <;>
      simp [List.countP_cons, Op.isAlignCmd, Op.isAwaitFeedback, Op.isFlush,
        ihres.2.1, ihres.2.2.1, ihres.2.2.2]

/-- C4 (amended): for every max_iter at least 1, if the feedback source
yields on every iteration a reading whose computed corrections vector is
nonzero — some axis out of tolerance under the comparisons the source
performs, in which the dRY entry is gated on the dRX magnitude — the loop
performs exactly max_iter iterations, issuing exactly max_iter alignment
commands and max_iter feedback reads, and then raises the exhaustion
error carrying the target identity and max_iter. -/
theorem align_exhausts_after_max_iter
    (fb : ℕ → OffsetsPublish) (tolerance_linear tolerance_angular : ℚ)
    (target : AlignComponent) (max_iter : ℕ) (hpos : 1 ≤ max_iter)
    (hnz : ∀ m, m < max_iter →
      (corrections tolerance_linear tolerance_angular (fb m)).any
        (fun x => decide (x ≠ 0)) = true) :
    (align_target fb tolerance_linear tolerance_angular target
        max_iter).2 = .error (.exhausted target max_iter) ∧
    (align_target fb tolerance_linear tolerance_angular target
        max_iter).1.countP Op.isAlignCmd = max_iter ∧
    (align_target fb tolerance_linear tolerance_angular target
        max_iter).1.countP Op.isAwaitFeedback = max_iter := by
  have h := alignGo_never_converges fb tolerance_linear tolerance_angular
    target max_iter max_iter 0 (fun m hm1 hm2 => hnz m (by omega))
  exact ⟨h.1, h.2.1, h.2.2.1⟩

/-- C4 counterexample: the reading (0, 0, 0, 0, 1) has its dRY axis out
of tolerance on every iteration, yet with max_iter = 2 the loop stops
after a single iteration reporting success instead of performing two
iterations and raising the exhaustion error. -/
theorem align_out_of_tolerance_converges_early :
    defaultTolAngular < |(1 : ℚ)| ∧
    align_target (fun _ => ⟨0, 0, 0, 0, 1⟩) defaultTolLinear
        defaultTolAngular AlignComponent.M2 2 =
      ([Op.flush, Op.alignCmd AlignComponent.M2, Op.awaitFeedback],
        Except.ok ()) := by
  constructor
  · norm_num [defaultTolAngular]
  · norm_num [align_target, alignGo, corrections, defaultTolLinear,
      defaultTolAngular]

/-- C4 witness: a constant dRX deviation of 1 degree never converges, so
two configured iterations issue two alignment commands, two feedback
reads, and end in the exhaustion error for M2 with max_iter = 2. -/
theorem align_exhausts_after_max_iter_witness :
    (align_target (fun _ => ⟨0, 0, 0, 1, 0⟩) defaultTolLinear
        defaultTolAngular AlignComponent.M2 2).2 =
        .error (.exhausted AlignComponent.M2 2) ∧
    (align_target (fun _ => ⟨0, 0, 0, 1, 0⟩) defaultTolLinear
        defaultTolAngular AlignComponent.M2 2).1.countP Op.isAlignCmd = 2 ∧
    (align_target (fun _ => ⟨0, 0, 0, 1, 0⟩) defaultTolLinear
        defaultTolAngular AlignComponent.M2 2).1.countP
        Op.isAwaitFeedback = 2 :=
  align_exhausts_after_max_iter (fun _ => ⟨0, 0, 0, 1, 0⟩) defaultTolLinear
    defaultTolAngular AlignComponent.M2 2 (by norm_num)
    (fun m _ => by norm_num [corrections, defaultTolLinear, defaultTolAngular])

/-- Helper: every alignGo trace splits into per-iteration blocks. -/
theorem alignGo_blocks
    (fb : ℕ → OffsetsPublish) (tolerance_linear tolerance_angular : ℚ)
    (target : AlignComponent) (max_iter : ℕ) :
    ∀ (r n : ℕ), ∃ bs : List (List Op),
      (alignGo fb tolerance_linear tolerance_angular target max_iter
          n r).1 = bs.flatten ∧
      ∀ b ∈ bs, IsIterBlock target b := by
  intro r
  induction r with
  | zero =>
    intro n
    exact ⟨[], by simp [alignGo], by simp⟩
  | succ r ih =>
    intro n
    obtain ⟨bs, hbs, hall⟩ := ih (n + 1)
    by_cases hc : ∃ x ∈ corrections tolerance_linear tolerance_angular
        (fb n), ¬x = 0
    · refine ⟨[Op.flush, Op.alignCmd target, Op.awaitFeedback,
          Op.relMove ((corrections tolerance_linear tolerance_angular
            (fb n)).map (fun x => -x))] :: bs, ?_, ?_⟩
      · simp [alignGo, hc, hbs]
      · intro b hb
        rcases List.mem_cons.mp hb with hb | hb
        · exact Or.inr ⟨_, hb⟩
        · exact hall b hb
    · refine ⟨[[Op.flush, Op.alignCmd target, Op.awaitFeedback]], ?_, ?_⟩
      · simp [alignGo, hc]
      · intro b hb
        rcases List.mem_singleton.mp hb with rfl
        exact Or.inl rfl

/-- C9: the trace of align_target is a concatenation of iteration blocks,
each of which performs, in order, the stale-event flush, then the
alignment command for the configured target, then exactly one feedback
wait, optionally followed by the relative move; so the flush of an
iteration always precedes the command of that same iteration, and each
command is followed by exactly one feedback wait before the next flush. -/
theorem align_trace_iteration_blocks
    (fb : ℕ → OffsetsPublish) (tolerance_linear tolerance_angular : ℚ)
    (target : AlignComponent) (max_iter : ℕ) :
    ∃ bs : List (List Op),
      (align_target fb tolerance_linear tolerance_angular target
          max_iter).1 = bs.flatten ∧
      ∀ b ∈ bs, IsIterBlock target b :=
  alignGo_blocks fb tolerance_linear tolerance_angular target max_iter
    max_iter 0

end LaserAlign

namespace SyncDOF

/-- Helper: a window holding no sample of the archive queries empty. -/
theorem queryWindow_eq_nil {arch : List Sample} {tstart tstop : ℚ}
    (h : ∀ s ∈ arch, ¬(tstart ≤ s.ts ∧ s.ts < tstop)) :
    queryWindow arch tstart tstop = [] := by
  rw [queryWindow, List.filter_eq_nil_iff]
  intro s hs
  simpa using h s hs

/-- Helper: a nonempty window stops the search at once, whatever lookback
budget remains, and the last row of the window is the answer. -/
theorem lastIssuedGo_hit {arch : List Sample} {time : ℚ} {n : ℕ}
    {s : Sample} (r : ℕ)
    (h : (queryWindow arch (time - (n + 1)) (time - n)).getLast? = some s) :
    lastIssuedGo arch time n r = s.state := by
  cases r <;> simp [lastIssuedGo, h]

/-- Helper: an empty window steps the search one day further back,
spending one unit of the lookback budget. -/
theorem lastIssuedGo_step {arch : List Sample} {time : ℚ} {n : ℕ} (r : ℕ)
    (h : queryWindow arch (time - (n + 1)) (time - n) = []) :
    lastIssuedGo arch time n (r + 1) = lastIssuedGo arch time (n + 1) r := by
  simp [lastIssuedGo, h]

/-- Helper: k consecutive empty windows advance the search k windows. -/
theorem lastIssuedGo_skip {arch : List Sample} {time : ℚ} :
    ∀ (k n r : ℕ),
      (∀ m, n ≤ m → m < n + k →
        queryWindow arch (time - (m + 1)) (time - m) = []) →
      lastIssuedGo arch time n (k + r) = lastIssuedGo arch time (n + k) r := by
  intro k
  induction k with
  | zero =>
    intro n r _
    simp
  | succ k ih =>
    intro n r h
    have h0 : queryWindow arch (time - (n + 1)) (time - n) = [] :=
      h n le_rfl (by omega)
    have hkr : k + 1 + r = (k + r) + 1 := by omega
    rw [hkr, lastIssuedGo_step (k + r) h0,
      ih (n + 1) r (fun m hm1 hm2 => h m (by omega) (by omega))]
    have : n + 1 + k = n + (k + 1) := by omega
    rw [this]

/-- Helper: in a list sorted by nondecreasing timestamp, the last element
carries the greatest timestamp. -/
theorem ts_le_getLast :
    ∀ (l : List Sample), l.Pairwise (fun a b => a.ts ≤ b.ts) →
      ∀ (h : l ≠ []) (a : Sample), a ∈ l → a.ts ≤ (l.getLast h).ts := by
  intro l
  induction l with
  | nil =>
    intro _ h
    exact absurd rfl h
  | cons x xs ih =>
    intro hp h a ha
    cases xs with
    | nil =>
      rw [List.mem_singleton.mp ha]
      simp [List.getLast_singleton]
    | cons y ys =>
      rw [List.getLast_cons (List.cons_ne_nil y ys)]
      rcases List.mem_cons.mp ha with rfl | ha2
      · exact (List.pairwise_cons.mp hp).1 _
          (List.getLast_mem (List.cons_ne_nil y ys))
      · exact ih (List.pairwise_cons.mp hp).2 (List.cons_ne_nil y ys) a ha2

/-- C6: with the archive sorted by timestamp, if the first n one-day
windows stepping back from the reference time are empty and window n
(n at most 7, so within the lookback budget) holds a sample, the locator
returns the state of the last-by-timestamp sample of that first nonempty
window, stopping there. -/
theorem locator_first_nonempty_window
    (arch : List Sample) (time : ℚ) (n : ℕ)
    (hsorted : arch.Pairwise (fun a b => a.ts ≤ b.ts))
    (hn : n ≤ 7)
    (hprev : ∀ m, m < n → queryWindow arch (time - (m + 1)) (time - m) = [])
    (hne : queryWindow arch (time - (n + 1)) (time - n) ≠ []) :
    ∃ s ∈ queryWindow arch (time - (n + 1)) (time - n),
      get_last_issued_state arch time = s.state ∧
      ∀ s2 ∈ queryWindow arch (time - (n + 1)) (time - n), s2.ts ≤ s.ts := by
  refine ⟨(queryWindow arch (time - (n + 1)) (time - n)).getLast hne,
    List.getLast_mem hne, ?_, ?_⟩
  · have hsk := lastIssuedGo_skip n 0 (7 - n)
      (fun m hm1 hm2 => hprev m (by omega))
    have h7 : n + (7 - n) = 7 := by omega
    rw [h7] at hsk
    have hzn : 0 + n = n := by omega
    rw [hzn] at hsk
    rw [get_last_issued_state, max_lookback_days, hsk]
    exact lastIssuedGo_hit (7 - n) (List.getLast?_eq_getLast_of_ne_nil hne)
  · intro s2 hs2
    exact ts_le_getLast _ (hsorted.filter _) hne s2 hs2

/-- C6 witness: a single sample 2.5 days old is found in the third
window, [time - 3, time - 2), after the first two windows query empty. -/
theorem locator_first_nonempty_window_witness :
    ∃ s ∈ queryWindow [⟨mkRat 195 2, List.replicate 50 1⟩] (100 - (2 + 1))
        (100 - 2),
      get_last_issued_state [⟨mkRat 195 2, List.replicate 50 1⟩] 100 =
        s.state ∧
      ∀ s2 ∈ queryWindow [⟨mkRat 195 2, List.replicate 50 1⟩] (100 - (2 + 1))
          (100 - 2), s2.ts ≤ s.ts :=
  locator_first_nonempty_window [⟨mkRat 195 2, List.replicate 50 1⟩] 100 2
    (by simp) (by norm_num)
    (by
      intro m hm
      interval_cases m <;> norm_num [queryWindow])
    (by norm_num [queryWindow])

/-- C7 counterexample: the only sample of the stream is 7.5 days old, so
no sample lies within max_lookback = 7 days of the reference time, yet
the locator returns that sample and not the zero vector. -/
theorem locator_sample_beyond_seven_days_returned :
    (mkRat 185 2 : ℚ) < 100 - 7 ∧
    get_last_issued_state [⟨mkRat 185 2, List.replicate 50 1⟩] 100 =
      List.replicate 50 1 ∧
    List.replicate 50 (1 : ℚ) ≠ List.replicate 50 (0 : ℚ) := by
  refine ⟨by norm_num, ?_, by decide⟩
  norm_num [get_last_issued_state, max_lookback_days, lastIssuedGo,
    queryWindow]

/-- C7 (amended): when no sample lies within 8 days before the reference
time — the search queries eight one-day windows, reaching 8 days back,
before the lookback test fires — the locator terminates normally with the
zero state vector of width 50, raising no error. -/
theorem locator_no_data_returns_zeros
    (arch : List Sample) (time : ℚ)
    (h : ∀ s ∈ arch, s.ts < time - 8 ∨ time ≤ s.ts) :
    get_last_issued_state arch time = List.replicate 50 0 := by
  have hw : ∀ m : ℕ, m ≤ 7 →
      queryWindow arch (time - (m + 1)) (time - m) = [] := by
    intro m hm
    apply queryWindow_eq_nil
    rintro s hs ⟨hle, hlt⟩
    have hm8 : (m : ℚ) ≤ 7 := by exact_mod_cast hm
    have hm0 : (0 : ℚ) ≤ (m : ℚ) := Nat.cast_nonneg m
    rcases h s hs with h1 | h1 <;> linarith
  have hsk := lastIssuedGo_skip 7 0 0 (fun m hm1 hm2 => hw m (by omega))
  rw [get_last_issued_state, max_lookback_days, hsk]
  have h7 := hw 7 le_rfl
  norm_num at h7
  norm_num [lastIssuedGo, h7]

/-- C7 witness: a stream whose only sample is 10 days old yields the zero
vector. -/
theorem locator_no_data_returns_zeros_witness :
    get_last_issued_state [⟨90, List.replicate 50 5⟩] 100 =
      List.replicate 50 0 :=
  locator_no_data_returns_zeros [⟨90, List.replicate 50 5⟩] 100
    (by
      intro s hs
      rw [List.mem_singleton.mp hs]
      left
      norm_num)

/-- C10: when the most recent sample of the sorted archive is more than 7
days but at most 8 days before the reference time, the locator still
queries the eighth window [time - 8, time - 7) — the lookback test runs
only after each query — and returns that most recent sample rather than
the zero default. -/
theorem locator_eighth_window_hit
    (arch : List Sample) (time : ℚ)
    (hsorted : arch.Pairwise (fun a b => a.ts ≤ b.ts))
    (hold : ∀ s ∈ arch, s.ts < time - 7)
    (hrecent : ∃ s ∈ arch, time - 8 ≤ s.ts) :
    ∃ s ∈ arch,
      get_last_issued_state arch time = s.state ∧
      time - 8 ≤ s.ts ∧ s.ts < time - 7 ∧
      ∀ s2 ∈ arch, s2.ts ≤ s.ts := by
  have hw : ∀ m : ℕ, m ≤ 6 →
      queryWindow arch (time - (m + 1)) (time - m) = [] := by
    intro m hm
    apply queryWindow_eq_nil
    rintro s hs ⟨hle, _⟩
    have h1 := hold s hs
    have hm7 : (m : ℚ) + 1 ≤ 7 := by exact_mod_cast Nat.succ_le_succ hm
    linarith
  obtain ⟨s0, hs0, hs0e⟩ := hrecent
  have hcast1 : time - ((7 : ℕ) + 1 : ℚ) = time - 8 := by norm_num
  have hcast2 : time - ((7 : ℕ) : ℚ) = time - 7 := by norm_num
  have hmem : s0 ∈ queryWindow arch (time - ((7 : ℕ) + 1)) (time - (7 : ℕ)) := by
    rw [queryWindow, List.mem_filter]
    refine ⟨hs0, ?_⟩
    simp only [Bool.and_eq_true, decide_eq_true_eq]
    rw [hcast1, hcast2]
    exact ⟨hs0e, hold s0 hs0⟩
  have hne : queryWindow arch (time - ((7 : ℕ) + 1)) (time - (7 : ℕ)) ≠ [] :=
    List.ne_nil_of_mem hmem
  set w := queryWindow arch (time - ((7 : ℕ) + 1)) (time - (7 : ℕ)) with hwdef
  have hlastmem : w.getLast hne ∈ w := List.getLast_mem hne
  have hlastarch : w.getLast hne ∈ arch ∧ _ := List.mem_filter.mp hlastmem
  have hbounds : time - 8 ≤ (w.getLast hne).ts ∧
      (w.getLast hne).ts < time - 7 := by
    have h2 := hlastarch.2
    simp only [Bool.and_eq_true, decide_eq_true_eq] at h2
    rwa [hcast1, hcast2] at h2
  refine ⟨w.getLast hne, hlastarch.1, ?_, hbounds.1, hbounds.2, ?_⟩
  · have hsk := lastIssuedGo_skip 7 0 0 (fun m hm1 hm2 => hw m (by omega))
    rw [get_last_issued_state, max_lookback_days, hsk]
    exact lastIssuedGo_hit 0 (List.getLast?_eq_getLast_of_ne_nil hne)
  · intro s2 hs2
    by_cases hcase : time - 8 ≤ s2.ts
    · have hmem2 : s2 ∈ w := by
        rw [hwdef, queryWindow, List.mem_filter]
        refine ⟨hs2, ?_⟩
        simp only [Bool.and_eq_true, decide_eq_true_eq]
        rw [hcast1, hcast2]
        exact ⟨hcase, hold s2 hs2⟩
      exact ts_le_getLast w (hsorted.filter _) hne s2 hmem2
    · have := hbounds.1
      linarith [not_le.mp hcase]

/-- C10 witness: a single sample 7.5 days old is returned from the eighth
window. -/
theorem locator_eighth_window_hit_witness :
    ∃ s ∈ [(⟨mkRat 185 2, List.replicate 50 3⟩ : Sample)],
      get_last_issued_state [⟨mkRat 185 2, List.replicate 50 3⟩] 100 =
        s.state ∧
      (100 : ℚ) - 8 ≤ s.ts ∧ s.ts < 100 - 7 ∧
      ∀ s2 ∈ [(⟨mkRat 185 2, List.replicate 50 3⟩ : Sample)], s2.ts ≤ s.ts :=
  locator_eighth_window_hit [⟨mkRat 185 2, List.replicate 50 3⟩] 100
    (by simp)
    (by
      intro s hs
      rw [List.mem_singleton.mp hs]
      norm_num)
    ⟨⟨mkRat 185 2, List.replicate 50 3⟩, List.mem_singleton.mpr rfl,
      by norm_num⟩

/-- C2: in every execution of the embedded SyncDOF.run, iterating
last_state raises TypeError, because run binds last_state to the
un-awaited coroutine object returned by calling get_last_issued_state
without await (on the equally un-awaited get_image_time result); run
therefore never subtracts the awaited historical state vector and never
issues the offsetDOF command. -/
theorem runSync_unawaited_coroutine_type_error (env : SyncEnv) :
    runSync env = ([SyncOp.checkpointDof, SyncOp.getCurrentDof],
        .error PyErr.typeError) ∧
    ∀ v, SyncOp.offsetDOFCmd v ∉ (runSync env).1 := by
  refine ⟨rfl, ?_⟩
  intro v
  show SyncOp.offsetDOFCmd v ∉ [SyncOp.checkpointDof, SyncOp.getCurrentDof]
  simp

/-- Helper: invariant of the offset-filling loop.  With enough room in
the current vector and in the command array, the loop succeeds, writes
target[k] - current[i + k] at position i + k for every index k of the
remaining target entries, and leaves every other position unchanged. -/
theorem syncLoop_ok (current : List ℚ) :
    ∀ (ts value : List ℚ) (i : ℕ),
      i + ts.length ≤ current.length →
      i + ts.length ≤ value.length →
      ∃ l, syncLoop current value i ts = .ok l ∧
        l.length = value.length ∧
        (∀ j, j < i ∨ i + ts.length ≤ j → l[j]? = value[j]?) ∧
        (∀ k, k < ts.length →
          l[i + k]? = some (ts.getD k 0 - current.getD (i + k) 0)) := by
  intro ts
  induction ts with
  | nil =>
    intro value i h1 h2
    exact ⟨value, rfl, rfl, fun j _ => rfl, fun k hk => absurd hk (by simp)⟩
  | cons t ts ih =>
    intro value i h1 h2
    have hi : i < current.length := by
      simp only [List.length_cons] at h1
      omega
    have hiv : i < value.length := by
      simp only [List.length_cons] at h2
      omega
    have hcur : current[i]? = some current[i] := List.getElem?_eq_getElem hi
    obtain ⟨l, hl, hlen, hout, hin⟩ :=
      ih (value.set i (t - current[i])) (i + 1)
        (by simp only [List.length_cons] at h1; omega)
        (by
          rw [List.length_set]
          simp only [List.length_cons] at h2
          omega)
    refine ⟨l, ?_, ?_, ?_, ?_⟩
    · rw [syncLoop, hcur]
      simp only [if_pos hiv]
      exact hl
    · rw [hlen, List.length_set]
    · intro j hj
      have hne : i ≠ j := by
        rcases hj with hj | hj
        · omega
        · simp only [List.length_cons] at hj
          omega
      have hj2 : j < i + 1 ∨ (i + 1) + ts.length ≤ j := by
        rcases hj with hj | hj
        · exact Or.inl (by omega)
        · simp only [List.length_cons] at hj
          exact Or.inr (by omega)
      rw [hout j hj2, List.getElem?_set_ne hne]
    · intro k hk
      cases k with
      | zero =>
        have h0 : l[i + 0]? = (value.set i (t - current[i]))[i]? := by
          have := hout i (Or.inl (by omega))
          simpa using this
        rw [h0, List.getElem?_set_eq_of_lt _ hiv]
        rw [List.getD_cons_zero, List.getD_eq_getElem current 0
          (by omega : i + 0 < current.length)]
        simp
      | succ k =>
        have hk2 : k < ts.length := by
          simp only [List.length_cons] at hk
          omega
        have := hin k hk2
        rw [show i + (k + 1) = (i + 1) + k from by omega, this,
          List.getD_cons_succ]

/-- C3 (amended): when the target vector fits inside the current vector
and the command array — as in every in-range use, where both have the
fixed DOF width — the offsets are componentwise differences
target[i] - current[i], and the remaining command entries stay zero.  No
length check exists: a target shorter than the current vector yields a
partial offset command instead of a shape-mismatch error, and only a
target overrunning the current vector or the command array raises, with
a plain index error. -/
theorem synchronize_componentwise
    (target current : List ℚ) (width : ℕ)
    (hlen : target.length ≤ current.length)
    (hwidth : target.length ≤ width) :
    ∃ l, synchronize target current width = .ok l ∧
      l.length = width ∧
      (∀ i, i < target.length →
        l[i]? = some (target.getD i 0 - current.getD i 0)) ∧
      (∀ i, target.length ≤ i → i < width → l[i]? = some 0) := by
  obtain ⟨l, hl, hlen2, hout, hin⟩ := syncLoop_ok current target
    (List.replicate width 0) 0 (by omega) (by simp only [List.length_replicate]; omega)
  refine ⟨l, hl, by simp only [hlen2, List.length_replicate], ?_, ?_⟩
  · intro i hi
    have := hin i hi
    simpa using this
  · intro i h1 h2
    have := hout i (Or.inr (by omega))
    rw [this]
    simp [List.getElem?_replicate, h2]

/-- C3 counterexample: target and current vectors of different lengths,
2 and 3, produce a normal offset command rather than any shape-mismatch
error: the loop writes the two offsets it can reach and leaves the last
command entry zero. -/
theorem synchronize_length_mismatch_no_error :
    [(1 : ℚ), 2].length ≠ [(1 : ℚ), 1, 1].length ∧
    synchronize [1, 2] [1, 1, 1] 3 = .ok [0, 1, 0] := by
  constructor
  · decide
  · norm_num [synchronize, syncLoop]
    decide

/-- C3 witness: the spec example, synchronize([1,2,3],[1,1,1]), yields
the componentwise offsets [0,1,2]. -/
theorem synchronize_componentwise_witness :
    ∃ l, synchronize [(1 : ℚ), 2, 3] [1, 1, 1] 3 = .ok l ∧
      l.length = 3 ∧
      (∀ i, i < [(1 : ℚ), 2, 3].length →
        l[i]? = some ([(1 : ℚ), 2, 3].getD i 0 - [(1 : ℚ), 1, 1].getD i 0)) ∧
      (∀ i, [(1 : ℚ), 2, 3].length ≤ i → i < 3 → l[i]? = some 0) :=
  synchronize_componentwise [1, 2, 3] [1, 1, 1] 3 (by decide) (by decide)

end SyncDOF
